import Mathlib

/-!
Verification of the Warehouse Copilot core pipeline model and its frontend client.

The repository sources at hand contain the React frontend (API client, type
declarations, pages) and the database initialization scripts.  The backend
components described by the design document (Query Validator, Execution
Coordinator, Retrieval Index) are reachable only through their frontend
callers, so those components are modelled here from the design document
itself; every such definition is marked `Modelled from the spec:` in its
doc comment.  The frontend API client (`request`, `exportToCSV`) and the
type declarations (`QueryRequest`, `QueryResponse`) are translated directly
from the TypeScript sources.
-/

/-! ## Query Validator and Execution Coordinator (modelled from the spec) -/

/-- Modelled from the spec: candidate SQL text, absent backend.  A SQL text is
modelled as the list of its semicolon-separated top-level statements, each
statement being its list of upper-cased tokens. -/
abbrev SqlText := List (List String)

/-- Modelled from the spec: the data-definition and data-manipulation leading
keywords that make a statement a non-read (validator rule 2, testable
properties section). -/
def nonReadKeywords : List String :=
  ["INSERT", "UPDATE", "DELETE", "DROP", "ALTER", "TRUNCATE"]

/-- Modelled from the spec: the non-empty statements of a SQL text; validator
rule 1 counts semicolon-separated non-empty top-level statements. -/
def nonEmptyStmts (sql : SqlText) : List (List String) :=
  sql.filter (fun s => !s.isEmpty)

/-- Modelled from the spec: validator rule 2 — the leading keyword of the
first statement is a data-definition or data-manipulation keyword. -/
def isNonRead (stmts : List (List String)) : Bool :=
  match stmts with
  | (k :: _) :: _ => nonReadKeywords.contains k
  | _ => false

/-- Modelled from the spec: validator rule 3 — an embedded comment sequence
that could mask trailing statements. -/
def hasSuspiciousComment (stmts : List (List String)) : Bool :=
  stmts.any (fun s => s.contains "--" || s.contains "/*")

/-- Modelled from the spec: whether a statement already carries a limiting
clause (validator rule 4). -/
def hasLimitClause (stmts : List (List String)) : Bool :=
  stmts.any (fun s => s.contains "LIMIT")

/-- Modelled from the spec: the bound token following the first LIMIT keyword
of a statement, used to state what ceiling a rewritten statement carries. -/
def limitBound : List String → Option String
  | [] => none
  | a :: rest => if a = "LIMIT" then rest.head? else limitBound rest

/-- ValidationVerdict per the data-model section: boolean safe/unsafe, ordered
list of violation reasons (empty if safe); a safe verdict carries the
(possibly rewritten) SQL forward. -/
structure ValidationVerdict where
  safe : Bool
  reasons : List String
  sql : SqlText
deriving Repr, DecidableEq

/-- Modelled from the spec: the Query Validator, absent backend.  Rules in
order, short-circuiting on first violation: (1) multiple semicolon-separated
top-level statements; (2) non-read statement; (3) suspicious comment;
(4) when a row-count ceiling is configured and the statement lacks a limiting
clause, inject one rather than rejecting. -/
def validate (rowLimit : Option Nat) (sql : SqlText) : ValidationVerdict :=
  let stmts := nonEmptyStmts sql
  if 2 ≤ stmts.length then ⟨false, ["multiple statements"], sql⟩
  else if isNonRead stmts then ⟨false, ["non-read statement"], sql⟩
  else if hasSuspiciousComment stmts then ⟨false, ["suspicious comment"], sql⟩
  else
    match rowLimit with
    | none => ⟨true, [], stmts⟩
    | some n =>
      if hasLimitClause stmts then ⟨true, [], stmts⟩
      else ⟨true, [], stmts.map (fun s => s ++ ["LIMIT", toString n])⟩

/-- ExecutionResult per the data-model section: column names, row data, row
count, wall-clock duration, truncation flag. -/
structure ExecutionResult where
  columns : List String
  rows : List (List String)
  rowCount : Nat
  durationMs : Nat
  truncated : Bool
deriving Repr, DecidableEq

/-- Outcome of one pipeline invocation: either an ExecutionResult produced at
the EXECUTE stage, or termination at VALIDATE with the unsafe verdict. -/
inductive PipelineOutcome where
  | executed (r : ExecutionResult)
  | rejected (v : ValidationVerdict)
deriving Repr, DecidableEq

/-- Modelled from the spec: the VALIDATE → EXECUTE portion of the Execution
Coordinator state machine, absent backend.  The connector execute capability
is an external parameter; an unsafe verdict terminates the pipeline before
EXECUTE and only a safe verdict's (possibly rewritten) SQL is executed. -/
def runPipeline (rowLimit : Option Nat) (exec : SqlText → ExecutionResult)
    (candidate : SqlText) : PipelineOutcome :=
  let v := validate rowLimit candidate
  if v.safe then .executed (exec v.sql) else .rejected v

/-! ## Retrieval Index (modelled from the spec) -/

/-- Modelled from the spec: the dot product of two fixed-dimension embedding
vectors. -/
def dot (n : Nat) (u v : Fin n → ℝ) : ℝ := ∑ i, u i * v i

/-- Modelled from the spec: cosine similarity between a query embedding and a
stored embedding, the Retrieval Index similarity metric. -/
noncomputable def cosineSim (n : Nat) (u v : Fin n → ℝ) : ℝ :=
  dot n u v / (Real.sqrt (dot n u u) * Real.sqrt (dot n v v))

/-- Modelled from the spec: a stored schema document with its embedding
vector, keyed by table name. -/
structure SchemaDocument (n : Nat) where
  table : String
  embedding : Fin n → ℝ

/-- Modelled from the spec: incremental insertion of a document into the
Retrieval Index store, absent backend. -/
def insertDoc (n : Nat) (d : SchemaDocument n) (store : List (SchemaDocument n)) :
    List (SchemaDocument n) := d :: store

/-! ## Frontend type declarations (from the TypeScript sources) -/

/-- A JavaScript value stored in one result-row field; the export code only
distinguishes strings (escaped) from everything else (emitted as rendered by
join). -/
inductive JsValue where
  | vstr (s : String)
  | vnum (n : Int)
  | vbool (b : Bool)
  | vnull
deriving Repr, DecidableEq

/-- A result row: a JavaScript object, i.e. an ordered association of field
names to values. -/
abbrev Row := List (String × JsValue)

/-- The string-literal union type of the query_type field in the frontend
QueryRequest declaration: a value of the type is exactly one of the strings
"natural" and "sql". -/
def validQueryType (s : String) : Bool := s == "natural" || s == "sql"

/-- QueryRequest from the frontend type declarations. -/
structure QueryRequest where
  query : String
  query_type : String
  limit : Option Nat
  database_type : Option String

/-- QueryResults from the frontend type declarations. -/
structure QueryResults where
  columns : List String
  data : List Row
  total_rows : Nat

/-- QueryResponse from the frontend type declarations. -/
structure QueryResponse where
  success : Bool
  query_id : Option String
  generated_sql : Option String
  results : Option QueryResults
  metadata : Option Row
  insights : Option String
  error : Option String
  execution_time_ms : Option Nat
  row_count : Option Nat

/-! ## Frontend API client (from the TypeScript sources) -/

/-- The error-body JSON a non-OK response may carry, as read by the client
(detail and error fields). -/
structure ErrData where
  detail : Option String
  error : Option String

/-- JavaScript truthiness fallback on optional strings: an absent value or an
empty string falls through to the fallback. -/
def jsOr (o : Option String) (fallback : String) : String :=
  match o with
  | some s => if s == "" then fallback else s
  | none => fallback

/-- ApiError from the frontend API client: message plus optional HTTP status.
The code and details fields carry the raw supplementary value and are not
modelled. -/
structure ApiError where
  message : String
  status : Option Nat
deriving Repr, DecidableEq

/-- The observable outcome of one fetch performed by the client request
method: an OK response with parsed body, a non-OK response with its optional
parsed error body (none when the body is not JSON), a thrown Error carrying a
message, or a thrown non-Error value. -/
inductive FetchOutcome where
  | success (body : String)
  | httpError (status : Nat) (errorData : Option ErrData)
  | thrownError (msg : String)
  | thrownOther

/-- The request method of the frontend API client: a non-OK response becomes
an ApiError whose message is the detail field, else the error field, else
"HTTP status", and whose status is the HTTP status; any other thrown value is
wrapped into an ApiError whose message is the Error message or "Unknown error
occurred".  The instanceof-ApiError rethrow in the catch block returns the
http-branch ApiError unchanged, which this model collapses. -/
def request (o : FetchOutcome) : Except ApiError String :=
  match o with
  | .success body => .ok body
  | .httpError status errorData =>
      .error ⟨jsOr (errorData.bind ErrData.detail)
                (jsOr (errorData.bind ErrData.error) ("HTTP " ++ toString status)),
              some status⟩
  | .thrownError msg => .error ⟨msg, none⟩
  | .thrownOther => .error ⟨"Unknown error occurred", none⟩

/-- JavaScript Array.prototype.join with the given separator; null and
undefined entries never arise here because cells are pre-rendered. -/
def joinWith (sep : String) : List String → String
  | [] => ""
  | [x] => x
  | x :: xs => x ++ sep ++ joinWith sep xs

/-- Whether a string includes the given character, as the includes test of
the export code does on its single-character needles. -/
def strContainsChar (s : String) (c : Char) : Bool := s.data.contains c

/-- One CSV cell of exportToCSV: a string field containing a comma or a
double quote is wrapped in double quotes with embedded double quotes doubled;
every other value is emitted unquoted as join renders it (absent keys and
null render as the empty string). -/
def renderCell : Option JsValue → String
  | some (.vstr s) =>
      if strContainsChar s ',' || strContainsChar s '"' then
        "\"" ++ s.replace "\"" "\"\"" ++ "\""
      else s
  | some (.vnum n) => toString n
  | some (.vbool b) => if b then "true" else "false"
  | some .vnull => ""
  | none => ""

/-- exportToCSV from the frontend API client: an empty data array produces no
download; otherwise the keys of the first row form the header line and every
row is rendered cell by cell under those headers, lines joined by newline. -/
def exportToCSV (data : List Row) : Option String :=
  match data with
  | [] => none
  | first :: _ =>
      let headers := first.map Prod.fst
      some (joinWith "\n"
        (joinWith "," headers ::
          data.map (fun row =>
            joinWith "," (headers.map (fun h => renderCell (row.lookup h))))))

/-! ## Helper lemmas (shared) -/

/-- Unfolding of join at a list with at least two elements. -/
theorem joinWith_cons_cons (sep x y : String) (l : List String) :
    joinWith sep (x :: y :: l) = x ++ sep ++ joinWith sep (y :: l) := rfl

/-- A statement free of the LIMIT keyword, extended with an explicit limiting
clause, carries exactly the appended bound. -/
theorem limitBound_append (t : String) :
    ∀ s : List String, s.contains "LIMIT" = false →
      limitBound (s ++ ["LIMIT", t]) = some t := by
  intro s
  induction s with
  | nil => intro _; simp [limitBound]
  | cons a s ih =>
    intro h
    simp only [List.contains_cons, Bool.or_eq_false_iff, beq_eq_false_iff_ne, ne_eq] at h
    obtain ⟨ha, hs⟩ := h
    have ha2 : ¬ a = "LIMIT" := fun hc => ha hc.symm
    simp [limitBound, ha2, ih hs]

/-- The dot product of a vector with itself is nonnegative. -/
theorem dot_self_nonneg (n : Nat) (u : Fin n → ℝ) : 0 ≤ dot n u u :=
  Finset.sum_nonneg fun i _ => mul_self_nonneg (u i)

/-- The dot product of a vector with itself is the sum of its squares. -/
theorem dot_self_eq_sum_sq (n : Nat) (u : Fin n → ℝ) :
    dot n u u = ∑ i, u i ^ 2 :=
  Finset.sum_congr rfl fun i _ => (pow_two (u i)).symm

/-- No stored embedding scores strictly above the query embedding itself. -/
theorem cosineSim_le_self (n : Nat) (u v : Fin n → ℝ) :
    cosineSim n u v ≤ cosineSim n u u := by
  have hA : 0 ≤ dot n u u := dot_self_nonneg n u
  have hB : 0 ≤ dot n v v := dot_self_nonneg n v
  rcases eq_or_lt_of_le hA with h0 | hA
  · unfold cosineSim
    rw [← h0, Real.sqrt_zero]
    simp
  · have hself : cosineSim n u u = 1 := by
      unfold cosineSim
      rw [Real.mul_self_sqrt hA.le]
      exact div_self (ne_of_gt hA)
    rw [hself]
    rcases eq_or_lt_of_le hB with h0 | hB
    · unfold cosineSim
      rw [← h0, Real.sqrt_zero, mul_zero, div_zero]
      exact zero_le_one
    · unfold cosineSim
      rw [div_le_one (mul_pos (Real.sqrt_pos.mpr hA) (Real.sqrt_pos.mpr hB))]
      have hcs := Real.sum_mul_le_sqrt_mul_sqrt Finset.univ u v
      rw [← dot_self_eq_sum_sq n u, ← dot_self_eq_sum_sq n v] at hcs
      exact hcs

/-! ## Claim theorems -/

/-- C1: no ExecutionResult is ever produced from a candidate whose
ValidationVerdict is unsafe, and in particular the generated SQL of the
question "delete all customers" terminates the pipeline at VALIDATE with
reason "non-read statement", never reaching EXECUTE. -/
theorem C1_no_execution_from_unsafe :
    (∀ (rowLimit : Option Nat) (exec : SqlText → ExecutionResult)
        (candidate : SqlText) (r : ExecutionResult),
        runPipeline rowLimit exec candidate = .executed r →
        (validate rowLimit candidate).safe = true) ∧
    (∀ (rowLimit : Option Nat) (exec : SqlText → ExecutionResult),
        runPipeline rowLimit exec [["DELETE", "FROM", "customers"]]
          = .rejected ⟨false, ["non-read statement"],
              [["DELETE", "FROM", "customers"]]⟩) := by
  constructor
  · intro rowLimit exec candidate r h
    cases hv : (validate rowLimit candidate).safe with
    | true => rfl
    | false => simp [runPipeline, hv] at h
  · intro rowLimit exec
    rfl

/-- Witness for C1 at a concrete safe candidate and a constant connector. -/
theorem C1_witness :
    (validate none [["SELECT", "ONE"]]).safe = true :=
  C1_no_execution_from_unsafe.1 none (fun _ => ⟨["c"], [["1"]], 1, 0, false⟩)
    [["SELECT", "ONE"]] ⟨["c"], [["1"]], 1, 0, false⟩ rfl

/-- C2 as stated is false: a SQL text whose leading keyword is DELETE but
which contains two non-empty statements is rejected with reason
"multiple statements", not "non-read statement", because rule 1 is checked
first. -/
theorem C2_counterexample :
    isNonRead (nonEmptyStmts [["DELETE", "FROM", "a"], ["DELETE", "FROM", "b"]])
        = true ∧
    (validate none [["DELETE", "FROM", "a"], ["DELETE", "FROM", "b"]]).reasons
        = ["multiple statements"] ∧
    (validate none [["DELETE", "FROM", "a"], ["DELETE", "FROM", "b"]]).reasons
        ≠ ["non-read statement"] := by decide

/-- C2 amended: for every candidate SQL text that parses as at most one
non-empty statement and whose leading keyword is INSERT, UPDATE, DELETE,
DROP, ALTER, or TRUNCATE, the validator returns unsafe with reason
"non-read statement". -/
theorem C2_non_read_statement (rowLimit : Option Nat) (sql : SqlText)
    (hsingle : (nonEmptyStmts sql).length < 2)
    (hkw : isNonRead (nonEmptyStmts sql) = true) :
    validate rowLimit sql = ⟨false, ["non-read statement"], sql⟩ := by
  simp [validate, hkw, Nat.not_le.mpr hsingle]

/-- Witness for C2 at the concrete statement DELETE FROM customers. -/
theorem C2_witness :
    validate none [["DELETE", "FROM", "customers"]]
      = ⟨false, ["non-read statement"], [["DELETE", "FROM", "customers"]]⟩ :=
  C2_non_read_statement none [["DELETE", "FROM", "customers"]]
    (by decide) (by decide)

/-- C3: a candidate SQL text with two or more non-empty semicolon-separated
top-level statements is rejected with the single reason
"multiple statements", whatever the configured row limit and whatever the
remaining rules would say — the rule short-circuits all later rules. -/
theorem C3_multiple_statements_first (rowLimit : Option Nat) (sql : SqlText)
    (h : 2 ≤ (nonEmptyStmts sql).length) :
    validate rowLimit sql = ⟨false, ["multiple statements"], sql⟩ := by
  simp [validate, h]

/-- Witness for C3 at two concrete DELETE statements, showing that even a
text violating rule 2 as well reports only the rule-1 reason. -/
theorem C3_witness :
    validate (some 7) [["DELETE", "FROM", "a"], ["DELETE", "FROM", "b"]]
      = ⟨false, ["multiple statements"],
          [["DELETE", "FROM", "a"], ["DELETE", "FROM", "b"]]⟩ :=
  C3_multiple_statements_first (some 7)
    [["DELETE", "FROM", "a"], ["DELETE", "FROM", "b"]] (by decide)

/-- C4: for a safe SELECT statement lacking a limiting clause and a
configured row-count ceiling, the validator returns a safe verdict (not a
rejection) carrying the rewritten SQL, the rewritten statement carries an
explicit limiting clause whose bound is the configured ceiling, and the SQL
the pipeline actually hands to the connector is exactly that rewritten
statement. -/
theorem C4_row_limit_injected (n : Nat) (rest : List String) (sql : SqlText)
    (hstmts : nonEmptyStmts sql = [("SELECT" :: rest)])
    (hcomment : hasSuspiciousComment [("SELECT" :: rest)] = false)
    (hlimit : ("SELECT" :: rest).contains "LIMIT" = false) :
    validate (some n) sql
        = ⟨true, [], [("SELECT" :: rest) ++ ["LIMIT", toString n]]⟩ ∧
    limitBound (("SELECT" :: rest) ++ ["LIMIT", toString n])
        = some (toString n) ∧
    (∀ exec : SqlText → ExecutionResult,
        runPipeline (some n) exec sql
          = .executed (exec [("SELECT" :: rest) ++ ["LIMIT", toString n]])) := by
  have hnr : isNonRead [("SELECT" :: rest)] = false := by
    simp [isNonRead, nonReadKeywords]
  have hlc : hasLimitClause [("SELECT" :: rest)] = false := by
    simp only [hasLimitClause, List.any_cons, List.any_nil, Bool.or_false]
    exact hlimit
  have hv : validate (some n) sql
      = ⟨true, [], [("SELECT" :: rest) ++ ["LIMIT", toString n]]⟩ := by
    simp [validate, hstmts, hnr, hcomment, hlc]
  refine ⟨hv, limitBound_append (toString n) ("SELECT" :: rest) hlimit, ?_⟩
  intro exec
  simp [runPipeline, hv]

/-- Witness for C4 at SELECT * FROM transactions with ceiling 100. -/
theorem C4_witness :
    validate (some 100) [["SELECT", "*", "FROM", "transactions"]]
      = ⟨true, [],
          [["SELECT", "*", "FROM", "transactions"] ++ ["LIMIT", toString 100]]⟩ :=
  (C4_row_limit_injected 100 ["*", "FROM", "transactions"]
    [["SELECT", "*", "FROM", "transactions"]] rfl rfl rfl).1

/-- C5: after inserting a SchemaDocument into the Retrieval Index store, a
query with that document's own embedding finds the document present and its
cosine-similarity score is greater than or equal to the score of every item
in the store, so it ranks top. -/
theorem C5_self_query_top_ranked (n : Nat) (d : SchemaDocument n)
    (store : List (SchemaDocument n)) :
    d ∈ insertDoc n d store ∧
    ∀ x ∈ insertDoc n d store,
      cosineSim n d.embedding x.embedding
        ≤ cosineSim n d.embedding d.embedding := by
  exact ⟨List.mem_cons_self d store, fun x _ => cosineSim_le_self n d.embedding x.embedding⟩

/-- Witness for C5 at a one-dimensional document over an empty store. -/
theorem C5_witness :
    cosineSim 1 (fun _ => (1:ℝ)) (fun _ => (1:ℝ))
      ≤ cosineSim 1 (fun _ => (1:ℝ)) (fun _ => (1:ℝ)) :=
  (C5_self_query_top_ranked 1 ⟨"accounts", fun _ => (1:ℝ)⟩ []).2
    ⟨"accounts", fun _ => (1:ℝ)⟩ (List.mem_cons_self _ _)

/-- C6: validation is deterministic — validating the same SQL text twice
under the same configured row limit yields identical verdicts, in particular
the same safe flag and the same reasons. -/
theorem C6_validate_idempotent (rowLimit : Option Nat) (sql : SqlText) :
    validate rowLimit sql = validate rowLimit sql ∧
    (validate rowLimit sql).safe = (validate rowLimit sql).safe ∧
    (validate rowLimit sql).reasons = (validate rowLimit sql).reasons :=
  ⟨rfl, rfl, rfl⟩

/-- C7 as stated is false: the frontend QueryRequest declares the mode field
as the string union of "natural" and "sql"; the value "raw" is not a member
of the union while "sql" is, so the two values are not natural and raw. -/
theorem C7_counterexample :
    validQueryType "raw" = false ∧ validQueryType "sql" = true ∧
    ¬ (∀ s : String, validQueryType s = true ↔ (s = "natural" ∨ s = "raw")) := by
  refine ⟨by decide, by decide, fun h => ?_⟩
  have := (h "sql").mp (by decide)
  rcases this with h1 | h1 <;> simp at h1

/-- C7 amended: the Execute interface accepts input whose mode field is one
of exactly the two values natural and sql, and returns an output carrying a
success flag, the generated SQL, result columns, rows and total, a row
count, an execution duration, and an error. -/
theorem C7_execute_interface_shape :
    (∀ s : String, validQueryType s = true ↔ (s = "natural" ∨ s = "sql")) ∧
    (∀ (a : Bool) (qid gsql : Option String) (res : Option QueryResults)
        (md : Option Row) (ins err : Option String) (ms rc : Option Nat),
        (QueryResponse.mk a qid gsql res md ins err ms rc).success = a ∧
        (QueryResponse.mk a qid gsql res md ins err ms rc).generated_sql = gsql ∧
        (QueryResponse.mk a qid gsql res md ins err ms rc).error = err ∧
        (QueryResponse.mk a qid gsql res md ins err ms rc).execution_time_ms = ms ∧
        (QueryResponse.mk a qid gsql res md ins err ms rc).row_count = rc) ∧
    (∀ (cols : List String) (rows : List Row) (tr : Nat),
        (QueryResults.mk cols rows tr).columns = cols ∧
        (QueryResults.mk cols rows tr).data = rows ∧
        (QueryResults.mk cols rows tr).total_rows = tr) := by
  refine ⟨fun s => ?_, fun a qid gsql res md ins err ms rc => ⟨rfl, rfl, rfl, rfl, rfl⟩,
    fun cols rows tr => ⟨rfl, rfl, rfl⟩⟩
  simp [validQueryType]

/-- Witness for C7 at the mode value natural. -/
theorem C7_witness : validQueryType "natural" = true :=
  (C7_execute_interface_shape.1 "natural").mpr (Or.inl rfl)

/-- C8: the validate-only verdict consists of a boolean safe flag and an
ordered list of violation reasons, and that list is empty exactly when the
verdict is safe. -/
theorem C8_reasons_empty_iff_safe (rowLimit : Option Nat) (sql : SqlText) :
    (validate rowLimit sql).reasons = [] ↔ (validate rowLimit sql).safe = true := by
  cases rowLimit <;> simp [validate] <;> split_ifs <;> simp

/-- Witness for C8 at a concrete safe statement and a concrete unsafe one. -/
theorem C8_witness :
    (validate none [["SELECT", "ONE"]]).reasons = [] :=
  (C8_reasons_empty_iff_safe none [["SELECT", "ONE"]]).mpr rfl

/-- C9: every failure path of the client request method produces an ApiError
and nothing else; a non-OK response yields an ApiError whose status is the
HTTP status and whose message falls back to "HTTP status" when the body
yields neither a detail nor an error field; a thrown Error is wrapped with
its own message and any other thrown value with "Unknown error occurred". -/
theorem C9_failures_become_ApiError :
    (∀ o : FetchOutcome,
        (∃ b, request o = .ok b) ∨ (∃ e : ApiError, request o = .error e)) ∧
    (∀ (status : Nat) (ed : Option ErrData) (e : ApiError),
        request (.httpError status ed) = .error e → e.status = some status) ∧
    (∀ (status : Nat) (ed : Option ErrData),
        ed.bind ErrData.detail = none → ed.bind ErrData.error = none →
        request (.httpError status ed)
          = .error ⟨"HTTP " ++ toString status, some status⟩) ∧
    (∀ msg : String, request (.thrownError msg) = .error ⟨msg, none⟩) ∧
    (request .thrownOther = .error ⟨"Unknown error occurred", none⟩) := by
  refine ⟨fun o => ?_, fun status ed e h => ?_, fun status ed hd he => ?_,
    fun msg => rfl, rfl⟩
  · cases o with
    | success body => exact Or.inl ⟨body, rfl⟩
    | httpError status ed => exact Or.inr ⟨_, rfl⟩
    | thrownError msg => exact Or.inr ⟨_, rfl⟩
    | thrownOther => exact Or.inr ⟨_, rfl⟩
  · simp only [request, Except.error.injEq] at h
    rw [← h]
  · simp [request, hd, he, jsOr]

/-- Witness for C9 at HTTP status 500 with a non-JSON body. -/
theorem C9_witness :
    request (.httpError 500 none)
      = .error ⟨"HTTP " ++ toString 500, some 500⟩ :=
  C9_failures_become_ApiError.2.2.1 500 none rfl rfl

/-- C10: exportToCSV on an empty array produces no download; on a non-empty
array the emitted text starts with the keys of the first row as the header
line; a string cell containing a comma or a double quote is wrapped in
double quotes with embedded double quotes doubled; every other string cell
is emitted verbatim, and non-string cells are emitted unquoted. -/
theorem C10_exportToCSV_shape :
    exportToCSV [] = none ∧
    (∀ (r : Row) (rs : List Row), ∃ body : String,
        exportToCSV (r :: rs)
          = some (joinWith "," (r.map Prod.fst) ++ body)) ∧
    (∀ s : String, (strContainsChar s ',' || strContainsChar s '"') = true →
        renderCell (some (.vstr s)) = "\"" ++ s.replace "\"" "\"\"" ++ "\"") ∧
    (∀ s : String, (strContainsChar s ',' || strContainsChar s '"') = false →
        renderCell (some (.vstr s)) = s) ∧
    (∀ n : Int, renderCell (some (.vnum n)) = toString n) := by
  refine ⟨rfl, fun r rs => ?_, fun s h => ?_, fun s h => ?_, fun n => rfl⟩
  · refine ⟨"\n" ++ joinWith "\n" ((r :: rs).map (fun row =>
      joinWith "," ((r.map Prod.fst).map (fun h => renderCell (row.lookup h))))), ?_⟩
    simp only [exportToCSV, List.map_cons, joinWith_cons_cons, Option.some.injEq]
    rw [String.append_assoc]
  · simp [renderCell, h]
  · simp [renderCell, h]

/-- Witness for C10: a cell with a comma is quoted, a plain cell is not. -/
theorem C10_witness :
    renderCell (some (.vstr "a,b"))
        = "\"" ++ ("a,b").replace "\"" "\"\"" ++ "\"" ∧
    renderCell (some (.vstr "plain")) = "plain" :=
  ⟨C10_exportToCSV_shape.2.2.1 "a,b" (by decide),
   C10_exportToCSV_shape.2.2.2.1 "plain" (by decide)⟩
